import Mathlib

/-!
Shallow embedding of the JSON-RPC mock server
(source: src-tauri/tests/resources/mcp_mock_server.py).

Python JSON values decoded by json.loads are modelled by the inductive
type Json below (numbers restricted to integers, which covers every value
the claims exercise).  The library calls json.loads and int() are modelled
as explicit function parameters, since their implementations are outside
the repository; everything else is translated line by line from the
Python source.  Escaping exceptions are modelled explicitly: the
attribute access request.get raises on a non-dict request before any
sleep, and the membership test method in errors raises TypeError on an
unhashable (array or object) method after the sleep; either exception
escapes process_request, is caught by the outer handler of main, and
terminates the loop with no response.
-/

namespace MCPMock

/-- A JSON value as produced by json.loads: null, booleans, integer
numbers, strings, arrays, and objects (Python dicts, modelled as
association lists with string keys). -/
inductive Json where
  | null
  | bool (b : Bool)
  | num (n : Int)
  | str (s : String)
  | arr (elems : List Json)
  | obj (fields : List (String × Json))

/-- Identity test against None: the translation of the Python check
req_id is None, which is true exactly for the null constructor. -/
def Json.isNull : Json → Bool
  | .null => true
  | _ => false

/-- Whether a JSON-derived Python value is hashable: lists and dicts
are not, every other value json.loads can produce is. -/
def Json.pyHashable : Json → Bool
  | .arr _ => false
  | .obj _ => false
  | _ => true

/-- Lookup in a Python dict modelled as an association list:
d[k] when present, none when absent. -/
def dictGet : List (String × Json) → String → Option Json
  | [], _ => none
  | (k, v) :: rest, key => if k = key then some v else dictGet rest key

/-- Python d.get(k): returns the stored value, or None (Json.null) when
the key is absent.  Like the Python original it cannot distinguish an
absent key from a key stored with a null value. -/
def pyGet (fields : List (String × Json)) (k : String) : Json :=
  (dictGet fields k).getD Json.null

/-- A single quote character, used by the Python repr of strings. -/
def squote : String := "\x27"

mutual

/-- Python repr() of a JSON-derived value.  Strings are rendered inside
single quotes without the escaping the Python repr performs (exact for
strings free of quotes, backslashes and non-printable characters);
every other constructor is rendered exactly. -/
def pyRepr : Json → String
  | .null => "None"
  | .bool true => "True"
  | .bool false => "False"
  | .num n => toString n
  | .str s => squote ++ s ++ squote
  | .arr xs => "[" ++ pyReprList xs ++ "]"
  | .obj fs => "\x7b" ++ pyReprFields fs ++ "\x7d"

/-- Comma-separated reprs of the elements of a Python list. -/
def pyReprList : List Json → String
  | [] => ""
  | [x] => pyRepr x
  | x :: y :: rest => pyRepr x ++ ", " ++ pyReprList (y :: rest)

/-- Comma-separated reprs of the entries of a Python dict. -/
def pyReprFields : List (String × Json) → String
  | [] => ""
  | [(k, v)] => squote ++ k ++ squote ++ ": " ++ pyRepr v
  | (k, v) :: e :: rest =>
      squote ++ k ++ squote ++ ": " ++ pyRepr v ++ ", " ++ pyReprFields (e :: rest)

end

/-- Python str() of a JSON-derived value: identical to repr except on
strings, where str returns the raw text. -/
def pyStr : Json → String
  | .str s => s
  | j => pyRepr j

/-- The Python membership-and-index pattern (method in d) followed by
d[method], where d is a string-keyed dict.  Python hashes the key
before probing, so an unhashable method (a list or a dict) raises
TypeError, modelled by the error outcome; a hashable non-string method
never equals a string key, hence a clean miss; a string method probes
the dict. -/
def methodLookup (method : Json) (d : List (String × Json)) :
    Except Unit (Option Json) :=
  match method with
  | .str s => .ok (dictGet d s)
  | .arr _ => .error ()
  | .obj _ => .error ()
  | _ => .ok none

/-- Embedding of the error-descriptor branch of process_request
(lines 80 to 87 of the source): a list of length at least two is taken
positionally, a dict supplies optional code and message with defaults,
anything else (including shorter lists) is stringified as the message
with code -32603. -/
def resolveErrorData : Json → Json × Json
  | .arr (c :: m :: _) => (c, m)
  | .obj fields =>
      ((dictGet fields "code").getD (.num (-32603)),
       (dictGet fields "message").getD (.str "Internal error"))
  | d => (.num (-32603), .str (pyStr d))

/-- Result of process_request: the list of time.sleep durations
performed while handling the line (a side effect that survives a later
exception), and the outcome: an escaping exception, no response
(notification), or one response dict. -/
structure ProcOut where
  sleeps : List Int
  outcome : Except Unit (Option Json)

/-- The error-response dict built by process_request. -/
def mkErrorResponse (id code message : Json) : Json :=
  .obj [("jsonrpc", .str "2.0"), ("id", id),
        ("error", .obj [("code", code), ("message", message)])]

/-- The result-response dict built by process_request. -/
def mkResultResponse (id result : Json) : Json :=
  .obj [("jsonrpc", .str "2.0"), ("id", id), ("result", result)]

/-- Embedding of process_request.  The decoded argument is the outcome
of json.loads on the line: .error carries the decode diagnostic text,
.ok the parsed value.  A parsed value that is not a dict makes the
attribute access request.get raise before any sleep; an unhashable
method makes the membership test raise after the sleep; both escapes
are the error outcome.  The sleeps field records the time.sleep call
performed when delay_seconds is positive, whether or not a later
exception escapes. -/
def process_request (decoded : Except String Json)
    (responses errors : List (String × Json)) (delay_seconds : Int) :
    ProcOut :=
  match decoded with
  | .error e =>
      ⟨[], .ok (some (mkErrorResponse .null (.num (-32700))
        (.str ("Parse error: " ++ e))))⟩
  | .ok request =>
      match request with
      | .obj fields =>
          let method := pyGet fields "method"
          let req_id := pyGet fields "id"
          let sleeps : List Int := if delay_seconds > 0 then [delay_seconds] else []
          if req_id.isNull then
            ⟨sleeps, .ok none⟩
          else
            match methodLookup method errors with
            | .error u => ⟨sleeps, .error u⟩
            | .ok (some error_data) =>
                let code_message := resolveErrorData error_data
                ⟨sleeps, .ok (some (mkErrorResponse req_id
                  code_message.1 code_message.2))⟩
            | .ok none =>
                match methodLookup method responses with
                | .error u => ⟨sleeps, .error u⟩
                | .ok (some payload) =>
                    ⟨sleeps, .ok (some (mkResultResponse req_id payload))⟩
                | .ok none =>
                    ⟨sleeps, .ok (some (mkErrorResponse req_id (.num (-32601))
                      (.str ("Method not found: " ++ pyStr method))))⟩
      | _ => ⟨[], .error ()⟩

/-- The configuration tuple returned by load_config: responses, errors,
delay_seconds, hang_forever.  The two maps are kept as the raw values
json.loads produced (a dict when the environment text is a JSON object). -/
structure Config where
  responses : Json
  errors : Json
  delay_seconds : Int
  hang_forever : Bool

/-- Result of running load_config: the configuration together with the
diagnostic lines printed to stderr and the lines printed to stdout
(load_config prints only to stderr, so the stdout component is empty by
construction of the translation). -/
structure LoadOut where
  config : Config
  stderrLines : List String
  stdoutLines : List String

/-- Embedding of the MCP_MOCK_RESPONSES block of load_config
(lines 22 to 28): read the variable with default text of an empty JSON
object, skip parsing when the text is empty (Python falsiness), fall
back to the initial empty dict with a stderr diagnostic when json.loads
raises. -/
def loadResponses (parseJson : String → Except String Json)
    (env : String → Option String) : Json × List String :=
  let responses_json := (env "MCP_MOCK_RESPONSES").getD "\x7b\x7d"
  if responses_json = "" then (.obj [], [])
  else
    match parseJson responses_json with
    | .ok v => (v, [])
    | .error _ => (.obj [], ["ERROR: Invalid MCP_MOCK_RESPONSES JSON"])

/-- Embedding of the MCP_MOCK_ERRORS block of load_config
(lines 30 to 36), identical in shape to the responses block. -/
def loadErrors (parseJson : String → Except String Json)
    (env : String → Option String) : Json × List String :=
  let errors_json := (env "MCP_MOCK_ERRORS").getD "\x7b\x7d"
  if errors_json = "" then (.obj [], [])
  else
    match parseJson errors_json with
    | .ok v => (v, [])
    | .error _ => (.obj [], ["ERROR: Invalid MCP_MOCK_ERRORS JSON"])

/-- Embedding of the MCP_MOCK_DELAY block of load_config
(lines 38 to 43): int() is modelled by the parseInt parameter; on
failure the initial value 0 is kept and a diagnostic is printed. -/
def loadDelay (parseInt : String → Option Int)
    (env : String → Option String) : Int × List String :=
  let delay_str := (env "MCP_MOCK_DELAY").getD "0"
  match parseInt delay_str with
  | some n => (n, [])
  | none => (0, ["ERROR: Invalid MCP_MOCK_DELAY value: " ++ delay_str])

/-- Embedding of the MCP_MOCK_HANG line of load_config (line 46). -/
def loadHang (env : String → Option String) : Bool :=
  ["1", "true", "yes"].contains ((env "MCP_MOCK_HANG").getD "").toLower

/-- Embedding of load_config: the four blocks in source order, stderr
diagnostics concatenated in the order they are printed, nothing ever
printed to stdout. -/
def load_config (parseJson : String → Except String Json)
    (parseInt : String → Option Int)
    (env : String → Option String) : LoadOut :=
  let r := loadResponses parseJson env
  let e := loadErrors parseJson env
  let d := loadDelay parseInt env
  let h := loadHang env
  ⟨⟨r.1, e.1, d.1, h⟩, r.2 ++ e.2 ++ d.2, []⟩

/-- Whether Python str.isspace holds of a character: the tab to
carriage-return range, the file and group separator range, space, next
line, no-break space, ogham space mark, the en-quad to hair-space
range, line and paragraph separators, narrow no-break space, medium
mathematical space, and ideographic space. -/
def pyIsSpace (c : Char) : Bool :=
  (0x09 ≤ c.toNat && c.toNat ≤ 0x0D) ||
  (0x1C ≤ c.toNat && c.toNat ≤ 0x1F) ||
  c.toNat = 0x20 || c.toNat = 0x85 || c.toNat = 0xA0 || c.toNat = 0x1680 ||
  (0x2000 ≤ c.toNat && c.toNat ≤ 0x200A) ||
  c.toNat = 0x2028 || c.toNat = 0x2029 ||
  c.toNat = 0x202F || c.toNat = 0x205F || c.toNat = 0x3000

/-- Python str.strip() with no argument: remove the characters
str.isspace accepts from both ends of the line, modelled structurally
on the character list. -/
def pyStrip (s : String) : String :=
  String.mk (((s.data.dropWhile pyIsSpace).reverse.dropWhile
    pyIsSpace).reverse)

/-- Phase of the main loop: hanging (the while True sleep loop entered
when hang_forever is set), serving with the remaining stdin lines, or
done (loop exited, process about to terminate). -/
inductive MainPhase where
  | hanging
  | serving (remaining : List String)
  | done

/-- Whether a phase is the done phase, needed to state that the hanging
phase is never the done phase. -/
def MainPhase.isDone : MainPhase → Bool
  | .done => true
  | _ => false

/-- Initial phase of main (lines 128 to 136 of the source): the hang
check precedes any read from stdin. -/
def mainInit (hang_forever : Bool) (input : List String) : MainPhase :=
  if hang_forever then .hanging else .serving input

/-- One step of the main loop.  Returns the next phase, the response
lines emitted to stdout during the step, and the number of stdin lines
consumed.  In the hanging phase the body is time.sleep(1) and nothing
else: no read, no write, same phase.  In the serving phase one line is
read, stripped, skipped when blank, otherwise processed; a response is
printed exactly when process_request returned one, and an escaping
exception ends the loop (the outer except handler of main). -/
def mainStep (responses errors : List (String × Json)) (delay_seconds : Int)
    (parseJson : String → Except String Json) :
    MainPhase → MainPhase × List Json × Nat
  | .hanging => (.hanging, [], 0)
  | .done => (.done, [], 0)
  | .serving [] => (.done, [], 0)
  | .serving (l :: rest) =>
      let line := pyStrip l
      if line = "" then (.serving rest, [], 1)
      else
        match (process_request (parseJson line) responses errors delay_seconds).outcome with
        | .ok (some response) => (.serving rest, [response], 1)
        | .ok none => (.serving rest, [], 1)
        | .error _ => (.done, [], 1)

/-- Run the main loop for a given number of steps, accumulating emitted
responses and consumed input lines. -/
def mainRun (responses errors : List (String × Json)) (delay_seconds : Int)
    (parseJson : String → Except String Json) :
    MainPhase → Nat → MainPhase × List Json × Nat
  | ph, 0 => (ph, [], 0)
  | ph, n + 1 =>
      let s := mainStep responses errors delay_seconds parseJson ph
      let t := mainRun responses errors delay_seconds parseJson s.1 n
      (t.1, s.2.1 ++ t.2.1, s.2.2 + t.2.2)

/-- The id field of a response dict, as echoed on the wire. -/
def responseId : Json → Option Json
  | .obj fs => dictGet fs "id"
  | _ => none

/-- Characterization of the outcome process_request chooses for a dict
request, used to factor the proofs: no response for a null or absent
id, otherwise the first matching step among the raising membership
test, the errors map, the responses map, and method not found. -/
def resolverOutcome (fields re er : List (String × Json)) :
    Except Unit (Option Json) :=
  if (pyGet fields "id").isNull then .ok none
  else
    match methodLookup (pyGet fields "method") er with
    | .error u => .error u
    | .ok (some error_data) =>
        .ok (some (mkErrorResponse (pyGet fields "id")
          (resolveErrorData error_data).1 (resolveErrorData error_data).2))
    | .ok none =>
        match methodLookup (pyGet fields "method") re with
        | .error u => .error u
        | .ok (some payload) =>
            .ok (some (mkResultResponse (pyGet fields "id") payload))
        | .ok none =>
            .ok (some (mkErrorResponse (pyGet fields "id") (.num (-32601))
              (.str ("Method not found: " ++ pyStr (pyGet fields "method")))))

/-- The error shape exactly as the specification words it: a sequence
of at least two elements is taken positionally as code then message, a
mapping supplies an optional code (default -32603) and message (default
Internal error), and any other value, shorter sequences included, is
stringified into the message with code -32603.  Stated from the spec
text to be compared with resolveErrorData, which is translated from the
source. -/
def errorShapeSpec : Json → Json × Json
  | .arr xs =>
      if h : 2 ≤ xs.length then
        (xs.get ⟨0, by omega⟩, xs.get ⟨1, by omega⟩)
      else (.num (-32603), .str (pyStr (.arr xs)))
  | .obj fields =>
      ((dictGet fields "code").getD (.num (-32603)),
       (dictGet fields "message").getD (.str "Internal error"))
  | d => (.num (-32603), .str (pyStr d))

/-- A concrete stand-in for json.loads used by witnesses: parses the
empty-object text and rejects everything else. -/
def pjFixture : String → Except String Json :=
  fun s => if s = "\x7b\x7d" then .ok (.obj []) else .error "invalid"

/-- A concrete stand-in for int() used by witnesses. -/
def piFixture : String → Option Int :=
  fun s => if s = "0" then some 0 else if s = "-5" then some (-5) else none

/-- An environment whose only setting is a malformed responses map. -/
def envMalformedResponses : String → Option String :=
  fun v => if v = "MCP_MOCK_RESPONSES" then some "not-json" else none

/-- An environment whose only setting is a negative delay. -/
def envNegativeDelay : String → Option String :=
  fun v => if v = "MCP_MOCK_DELAY" then some "-5" else none

/-- A parse stand-in producing a call whose method is an array. -/
def pjArrMethodCall : String → Except String Json :=
  fun _ => .ok (.obj [("id", .num 1), ("method", .arr [])])

/-- A parse stand-in producing a falsy-id call whose method is an
array. -/
def pjArrMethodFalsyId : String → Except String Json :=
  fun _ => .ok (.obj [("id", .num 0), ("method", .arr [])])

theorem process_request_obj (fields re er : List (String × Json)) (ds : Int) :
    process_request (.ok (.obj fields)) re er ds
      = ⟨if ds > 0 then [ds] else [], resolverOutcome fields re er⟩ := by
  simp only [process_request, resolverOutcome]
  cases hn : (pyGet fields "id").isNull
  · simp only [hn, Bool.false_eq_true, if_false]
    cases hm : methodLookup (pyGet fields "method") er with
    | error u => simp [hm]
    | ok o =>
        cases o with
        | some ed => simp [hm]
        | none =>
            cases hr : methodLookup (pyGet fields "method") re with
            | error u => simp [hm, hr]
            | ok o2 => cases o2 <;> simp [hm, hr]
  · simp [hn]

theorem methodLookup_of_hashable (m : Json) (d : List (String × Json))
    (h : m.pyHashable = true) : ∃ o, methodLookup m d = .ok o := by
  cases m with
  | arr xs => simp [Json.pyHashable] at h
  | obj fs => simp [Json.pyHashable] at h
  | str s => exact ⟨_, rfl⟩
  | null => exact ⟨_, rfl⟩
  | bool b => exact ⟨_, rfl⟩
  | num n => exact ⟨_, rfl⟩

theorem methodLookup_of_unhashable (m : Json) (d : List (String × Json))
    (h : m.pyHashable = false) : methodLookup m d = .error () := by
  cases m with
  | arr xs => rfl
  | obj fs => rfl
  | str s => simp [Json.pyHashable] at h
  | null => simp [Json.pyHashable] at h
  | bool b => simp [Json.pyHashable] at h
  | num n => simp [Json.pyHashable] at h

theorem mainRun_hanging (re er : List (String × Json)) (ds : Int)
    (pj : String → Except String Json) (n : Nat) :
    mainRun re er ds pj .hanging n = (.hanging, [], 0) := by
  induction n with
  | zero => rfl
  | succ n ih => simp [mainRun, mainStep, ih]

/-- C2: a line that fails JSON decoding always yields exactly one error
response with code -32700, id null, and message Parse error followed by
the decoder diagnostic, for every configuration; the loop emits exactly
that one line. -/
theorem parse_failure_always_one_error_response
    (e : String) (re er : List (String × Json)) (ds : Int)
    (l : String) (rest : List String) (pj : String → Except String Json)
    (hline : pyStrip l ≠ "") (hp : pj (pyStrip l) = .error e) :
    process_request (.error e) re er ds
      = ⟨[], .ok (some (mkErrorResponse .null (.num (-32700))
          (.str ("Parse error: " ++ e))))⟩
    ∧ mainStep re er ds pj (.serving (l :: rest))
      = (.serving rest,
         [mkErrorResponse .null (.num (-32700)) (.str ("Parse error: " ++ e))], 1) := by
  refine ⟨rfl, ?_⟩
  simp [mainStep, hline, hp, process_request]

theorem parse_failure_always_one_error_response_witness :
    process_request (.error "bad") [] [] 0
      = ⟨[], .ok (some (mkErrorResponse .null (.num (-32700))
          (.str ("Parse error: " ++ "bad"))))⟩
    ∧ mainStep [] [] 0 (fun _ => .error "bad") (.serving ["oops"])
      = (.serving [],
         [mkErrorResponse .null (.num (-32700)) (.str ("Parse error: " ++ "bad"))], 1) :=
  parse_failure_always_one_error_response "bad" [] [] 0 "oops" []
    (fun _ => .error "bad") (by decide) rfl

/-- C3: a decoded request whose id is absent or null is a notification:
the resolver returns no response (only the delay side effect) and the
loop writes no output line for it. -/
theorem notification_produces_no_output
    (fields re er : List (String × Json)) (ds : Int)
    (hid : (pyGet fields "id").isNull = true) :
    process_request (.ok (.obj fields)) re er ds
      = ⟨if ds > 0 then [ds] else [], .ok none⟩
    ∧ ∀ (l : String) (rest : List String) (pj : String → Except String Json),
        pyStrip l ≠ "" → pj (pyStrip l) = .ok (.obj fields) →
        (mainStep re er ds pj (.serving (l :: rest))).2.1 = [] := by
  have h1 : process_request (.ok (.obj fields)) re er ds
      = ⟨if ds > 0 then [ds] else [], .ok none⟩ := by
    rw [process_request_obj]
    simp [resolverOutcome, hid]
  refine ⟨h1, fun l rest pj hline hp => ?_⟩
  simp [mainStep, hline, hp, h1]

theorem notification_produces_no_output_witness :
    process_request (.ok (.obj [("method", .str "notify")])) [("notify", .str "x")] [] 0
      = ⟨if (0 : Int) > 0 then [0] else [], .ok none⟩
    ∧ ∀ (l : String) (rest : List String) (pj : String → Except String Json),
        pyStrip l ≠ "" → pj (pyStrip l) = .ok (.obj [("method", .str "notify")]) →
        (mainStep [("notify", .str "x")] [] 0 pj (.serving (l :: rest))).2.1 = [] :=
  notification_produces_no_output [("method", .str "notify")] [("notify", .str "x")] [] 0 rfl

/-- C4: a positive delay is slept for every successfully decoded dict
request, before the notification check and before any branch on the
method, including requests that produce no response and requests whose
method later makes the membership test raise; a line that fails JSON
decoding sleeps nothing. -/
theorem delay_applies_before_branching
    (fields re er : List (String × Json)) (ds : Int) (hd : 0 < ds) :
    (process_request (.ok (.obj fields)) re er ds).sleeps = [ds]
    ∧ ((pyGet fields "id").isNull = true →
        process_request (.ok (.obj fields)) re er ds = ⟨[ds], .ok none⟩)
    ∧ (∀ e : String, process_request (.error e) re er ds
        = ⟨[], .ok (some (mkErrorResponse .null (.num (-32700))
            (.str ("Parse error: " ++ e))))⟩) := by
  have hds : (if ds > 0 then [ds] else []) = [ds] := if_pos hd
  refine ⟨?_, fun hid => ?_, fun e => rfl⟩
  · rw [process_request_obj]
    simpa using hds
  · rw [process_request_obj, hds]
    simp [resolverOutcome, hid]

theorem delay_applies_before_branching_witness :
    (0 : Int) < 2
    ∧ ((process_request (.ok (.obj [("method", .str "notify")])) [] [] 2).sleeps = [2]
      ∧ ((pyGet [("method", .str "notify")] "id").isNull = true →
          process_request (.ok (.obj [("method", .str "notify")])) [] [] 2
            = ⟨[2], .ok none⟩)
      ∧ (∀ e : String, process_request (.error e) [] [] 2
          = ⟨[], .ok (some (mkErrorResponse .null (.num (-32700))
              (.str ("Parse error: " ++ e))))⟩)) :=
  ⟨by decide, delay_applies_before_branching [("method", .str "notify")] [] [] 2 (by decide)⟩

/-- C8: with hang_forever set, main enters the hanging phase before any
read from stdin, and no number of steps of the hanging loop reads a
line, writes a line, or reaches the done phase. -/
theorem hang_forever_never_reads_writes_or_terminates
    (re er : List (String × Json)) (ds : Int)
    (pj : String → Except String Json) (input : List String) (n : Nat) :
    mainInit true input = MainPhase.hanging
    ∧ mainRun re er ds pj (mainInit true input) n = (.hanging, [], 0)
    ∧ (mainRun re er ds pj (mainInit true input) n).1.isDone = false := by
  have h0 : mainInit true input = MainPhase.hanging := rfl
  rw [h0]
  exact ⟨rfl, mainRun_hanging re er ds pj n, by rw [mainRun_hanging]; rfl⟩

/-- C9 counterexample: the request with id 0 and an array-valued
method passes the notification check but makes the membership test
raise; the process dies and the loop emits nothing, so no response
echoing the falsy id is ever produced. -/
theorem falsy_id_crash_counterexample :
    process_request (.ok (.obj [("id", .num 0), ("method", .arr [])])) [] [] 0
      = ⟨[], .error ()⟩
    ∧ mainStep [] [] 0 pjArrMethodFalsyId (.serving ["y"]) = (.done, [], 1)
    ∧ (mainStep [] [] 0 pjArrMethodFalsyId (.serving ["y"])).2.1 = [] :=
  ⟨rfl, rfl, rfl⟩

/-- C9 as amended: a request whose id is present and non-null, even
when the value is falsy in Python (0, false, the empty string), passes
the notification check and is never treated as a notification; when
the method is moreover hashable (anything but an array or object),
exactly one response is emitted and its id field echoes the request
id. -/
theorem falsy_nonnull_id_is_a_call
    (fields re er : List (String × Json)) (ds : Int)
    (hid : (pyGet fields "id").isNull = false) :
    (process_request (.ok (.obj fields)) re er ds).outcome ≠ .ok none
    ∧ ((pyGet fields "method").pyHashable = true →
        ∃ resp : Json,
          process_request (.ok (.obj fields)) re er ds
            = ⟨if ds > 0 then [ds] else [], .ok (some resp)⟩
          ∧ responseId resp = some (pyGet fields "id")
          ∧ ∀ (l : String) (rest : List String) (pj : String → Except String Json),
              pyStrip l ≠ "" → pj (pyStrip l) = .ok (.obj fields) →
              (mainStep re er ds pj (.serving (l :: rest))).2.1 = [resp]) := by
  constructor
  · rw [process_request_obj]
    show resolverOutcome fields re er ≠ .ok none
    unfold resolverOutcome
    simp only [hid, Bool.false_eq_true, if_false]
    cases hm : methodLookup (pyGet fields "method") er with
    | error u => simp
    | ok o =>
        cases o with
        | some ed => simp
        | none =>
            cases hr : methodLookup (pyGet fields "method") re with
            | error u => simp
            | ok o2 => cases o2 <;> simp
  · intro hhash
    have hbody : ∃ resp : Json, resolverOutcome fields re er = .ok (some resp)
        ∧ responseId resp = some (pyGet fields "id") := by
      obtain ⟨oe, hoe⟩ := methodLookup_of_hashable (pyGet fields "method") er hhash
      unfold resolverOutcome
      simp only [hid, Bool.false_eq_true, if_false, hoe]
      cases oe with
      | some ed => exact ⟨_, rfl, by simp [responseId, mkErrorResponse, dictGet]⟩
      | none =>
          obtain ⟨og, hog⟩ := methodLookup_of_hashable (pyGet fields "method") re hhash
          simp only [hog]
          cases og with
          | some payload => exact ⟨_, rfl, by simp [responseId, mkResultResponse, dictGet]⟩
          | none => exact ⟨_, rfl, by simp [responseId, mkErrorResponse, dictGet]⟩
    obtain ⟨resp, hresp, hrid⟩ := hbody
    have h1 : process_request (.ok (.obj fields)) re er ds
        = ⟨if ds > 0 then [ds] else [], .ok (some resp)⟩ := by
      rw [process_request_obj, hresp]
    refine ⟨resp, h1, hrid, fun l rest pj hline hp => ?_⟩
    simp [mainStep, hline, hp, h1]

theorem falsy_nonnull_id_is_a_call_witness :
    (process_request (.ok (.obj [("id", .num 0), ("method", .str "m")])) [] [] 0).outcome
      ≠ .ok none
    ∧ ∃ resp : Json,
        process_request (.ok (.obj [("id", .num 0), ("method", .str "m")])) [] [] 0
          = ⟨if (0 : Int) > 0 then [0] else [], .ok (some resp)⟩
        ∧ responseId resp = some (pyGet [("id", .num 0), ("method", .str "m")] "id")
        ∧ ∀ (l : String) (rest : List String) (pj : String → Except String Json),
            pyStrip l ≠ "" → pj (pyStrip l) = .ok (.obj [("id", .num 0), ("method", .str "m")]) →
            (mainStep [] [] 0 pj (.serving (l :: rest))).2.1 = [resp] :=
  ⟨(falsy_nonnull_id_is_a_call [("id", .num 0), ("method", .str "m")] [] [] 0 rfl).1,
   (falsy_nonnull_id_is_a_call [("id", .num 0), ("method", .str "m")] [] [] 0 rfl).2 rfl⟩

/-- C1: when a call method is configured in both the errors map and the
responses map, the emitted response is the error built from the errors
entry, never the configured result. -/
theorem errors_take_precedence_over_responses
    (fields re er : List (String × Json)) (ds : Int) (m : String) (ed rv : Json)
    (hid : (pyGet fields "id").isNull = false)
    (hm : pyGet fields "method" = .str m)
    (he : dictGet er m = some ed)
    (_hboth : dictGet re m = some rv) :
    process_request (.ok (.obj fields)) re er ds
      = ⟨if ds > 0 then [ds] else [],
         .ok (some (mkErrorResponse (pyGet fields "id")
           (resolveErrorData ed).1 (resolveErrorData ed).2))⟩ := by
  rw [process_request_obj]
  simp [resolverOutcome, hid, methodLookup, hm, he]

theorem errors_take_precedence_over_responses_witness :
    process_request (.ok (.obj [("id", .num 1), ("method", .str "ping")]))
      [("ping", .str "pong")] [("ping", .arr [.num 7, .str "boom"])] 0
      = ⟨if (0 : Int) > 0 then [0] else [],
         .ok (some (mkErrorResponse (pyGet [("id", .num 1), ("method", .str "ping")] "id")
           (resolveErrorData (.arr [.num 7, .str "boom"])).1
           (resolveErrorData (.arr [.num 7, .str "boom"])).2))⟩ :=
  errors_take_precedence_over_responses
    [("id", .num 1), ("method", .str "ping")]
    [("ping", .str "pong")] [("ping", .arr [.num 7, .str "boom"])] 0 "ping"
    (.arr [.num 7, .str "boom"]) (.str "pong") rfl rfl rfl rfl

/-- C5: the descriptor-to-error shaping of the source agrees with the
three shapes the specification lists, and the call response for a
method configured in the errors map carries exactly that code and
message. -/
theorem configured_error_shapes
    (fields re er : List (String × Json)) (ds : Int) (m : String) (ed : Json)
    (hid : (pyGet fields "id").isNull = false)
    (hm : pyGet fields "method" = .str m)
    (he : dictGet er m = some ed) :
    (∀ j : Json, resolveErrorData j = errorShapeSpec j)
    ∧ process_request (.ok (.obj fields)) re er ds
      = ⟨if ds > 0 then [ds] else [],
         .ok (some (mkErrorResponse (pyGet fields "id")
           (errorShapeSpec ed).1 (errorShapeSpec ed).2))⟩ := by
  have hshape : ∀ j : Json, resolveErrorData j = errorShapeSpec j := by
    intro j
    cases j with
    | arr xs =>
        match xs with
        | [] => rfl
        | [x] => rfl
        | x :: y :: rest => simp [errorShapeSpec, resolveErrorData]
    | null => rfl
    | bool b => rfl
    | num n => rfl
    | str s => rfl
    | obj fs => rfl
  refine ⟨hshape, ?_⟩
  rw [process_request_obj, ← hshape]
  simp [resolverOutcome, hid, methodLookup, hm, he]

theorem configured_error_shapes_witness :
    (∀ j : Json, resolveErrorData j = errorShapeSpec j)
    ∧ process_request (.ok (.obj [("id", .num 1), ("method", .str "f")]))
        [] [("f", .str "oops")] 0
      = ⟨if (0 : Int) > 0 then [0] else [],
         .ok (some (mkErrorResponse (pyGet [("id", .num 1), ("method", .str "f")] "id")
           (errorShapeSpec (.str "oops")).1 (errorShapeSpec (.str "oops")).2))⟩ :=
  configured_error_shapes [("id", .num 1), ("method", .str "f")]
    [] [("f", .str "oops")] 0 "f" (.str "oops") rfl rfl rfl

/-- C6 counterexample: a call with id 1 and an array-valued method is
configured in neither map, yet the program does not produce a method
not found response: the membership test raises, the loop terminates
with nothing emitted. -/
theorem unknown_method_crash_counterexample :
    process_request (.ok (.obj [("id", .num 1), ("method", .arr [])])) [] [] 0
      = ⟨[], .error ()⟩
    ∧ mainStep [] [] 0 pjArrMethodCall (.serving ["x"]) = (.done, [], 1)
    ∧ (process_request (.ok (.obj [("id", .num 1), ("method", .arr [])])) [] [] 0).outcome
        ≠ .ok (some (mkErrorResponse (.num 1) (.num (-32601))
            (.str ("Method not found: " ++ pyStr (.arr []))))) :=
  ⟨rfl, rfl, fun h => Except.noConfusion h⟩

/-- C6 as amended: a call whose method is hashable (anything but an
array or object) and configured in neither map gets error -32601 with
the method rendered by str, null and absent methods included; a call
whose method is only in the responses map gets a result response
carrying the configured payload unmodified; a call whose method is an
array or object instead makes the membership test raise after the
sleep, so the process dies with no response. -/
theorem unknown_method_and_result_passthrough
    (fields re er : List (String × Json)) (ds : Int)
    (hid : (pyGet fields "id").isNull = false) :
    (methodLookup (pyGet fields "method") er = .ok none →
      methodLookup (pyGet fields "method") re = .ok none →
      process_request (.ok (.obj fields)) re er ds
        = ⟨if ds > 0 then [ds] else [],
           .ok (some (mkErrorResponse (pyGet fields "id") (.num (-32601))
             (.str ("Method not found: " ++ pyStr (pyGet fields "method")))))⟩)
    ∧ (∀ (m : String) (payload : Json),
        pyGet fields "method" = .str m →
        dictGet er m = none → dictGet re m = some payload →
        process_request (.ok (.obj fields)) re er ds
          = ⟨if ds > 0 then [ds] else [],
             .ok (some (mkResultResponse (pyGet fields "id") payload))⟩)
    ∧ ((pyGet fields "method").pyHashable = false →
        process_request (.ok (.obj fields)) re er ds
          = ⟨if ds > 0 then [ds] else [], .error ()⟩) := by
  refine ⟨?_, ?_, ?_⟩
  · intro he hr
    rw [process_request_obj]
    simp [resolverOutcome, hid, he, hr]
  · intro m payload hm he hr
    rw [process_request_obj]
    simp [resolverOutcome, hid, methodLookup, hm, he, hr]
  · intro hnh
    rw [process_request_obj]
    simp [resolverOutcome, hid, methodLookup_of_unhashable _ er hnh]

theorem unknown_method_and_result_passthrough_witness :
    process_request (.ok (.obj [("id", .num 2)])) [] [] 0
      = ⟨if (0 : Int) > 0 then [0] else [],
         .ok (some (mkErrorResponse (pyGet [("id", .num 2)] "id") (.num (-32601))
           (.str ("Method not found: " ++ pyStr (pyGet [("id", .num 2)] "method")))))⟩
    ∧ process_request (.ok (.obj [("id", .num 1), ("method", .str "ping")]))
        [("ping", .str "pong")] [] 0
      = ⟨if (0 : Int) > 0 then [0] else [],
         .ok (some (mkResultResponse (pyGet [("id", .num 1), ("method", .str "ping")] "id")
           (.str "pong")))⟩
    ∧ process_request (.ok (.obj [("id", .num 3), ("method", .arr [])])) [] [] 0
      = ⟨if (0 : Int) > 0 then [0] else [], .error ()⟩ :=
  ⟨(unknown_method_and_result_passthrough [("id", .num 2)] [] [] 0 rfl).1 rfl rfl,
   (unknown_method_and_result_passthrough [("id", .num 1), ("method", .str "ping")]
      [("ping", .str "pong")] [] 0 rfl).2.1 "ping" (.str "pong") rfl rfl rfl,
   (unknown_method_and_result_passthrough [("id", .num 3), ("method", .arr [])]
      [] [] 0 rfl).2.2 rfl⟩

/-- C7: configuration loading is total and degrades per setting: no
line ever goes to stdout; an absent or empty map variable yields the
empty mapping; malformed map text yields the empty mapping plus a
stderr diagnostic; an absent delay yields 0; non-integer delay text
yields 0 plus a stderr diagnostic. -/
theorem config_loading_degrades_gracefully
    (parseJson : String → Except String Json) (parseInt : String → Option Int)
    (env : String → Option String) :
    (load_config parseJson parseInt env).stdoutLines = []
    ∧ (parseJson "\x7b\x7d" = .ok (.obj []) → env "MCP_MOCK_RESPONSES" = none →
        (load_config parseJson parseInt env).config.responses = .obj [])
    ∧ (env "MCP_MOCK_RESPONSES" = some "" →
        (load_config parseJson parseInt env).config.responses = .obj [])
    ∧ (∀ (t msg : String), env "MCP_MOCK_RESPONSES" = some t → t ≠ "" →
        parseJson t = .error msg →
        (load_config parseJson parseInt env).config.responses = .obj []
        ∧ "ERROR: Invalid MCP_MOCK_RESPONSES JSON"
            ∈ (load_config parseJson parseInt env).stderrLines)
    ∧ (parseJson "\x7b\x7d" = .ok (.obj []) → env "MCP_MOCK_ERRORS" = none →
        (load_config parseJson parseInt env).config.errors = .obj [])
    ∧ (env "MCP_MOCK_ERRORS" = some "" →
        (load_config parseJson parseInt env).config.errors = .obj [])
    ∧ (∀ (t msg : String), env "MCP_MOCK_ERRORS" = some t → t ≠ "" →
        parseJson t = .error msg →
        (load_config parseJson parseInt env).config.errors = .obj []
        ∧ "ERROR: Invalid MCP_MOCK_ERRORS JSON"
            ∈ (load_config parseJson parseInt env).stderrLines)
    ∧ (parseInt "0" = some 0 → env "MCP_MOCK_DELAY" = none →
        (load_config parseJson parseInt env).config.delay_seconds = 0)
    ∧ (∀ t : String, env "MCP_MOCK_DELAY" = some t → parseInt t = none →
        (load_config parseJson parseInt env).config.delay_seconds = 0
        ∧ ("ERROR: Invalid MCP_MOCK_DELAY value: " ++ t)
            ∈ (load_config parseJson parseInt env).stderrLines) := by
  refine ⟨rfl, ?_, ?_, ?_, ?_, ?_, ?_, ?_, ?_⟩
  · intro hp henv
    simp [load_config, loadResponses, henv, hp]
  · intro henv
    simp [load_config, loadResponses, henv]
  · intro t msg henv ht hp
    constructor
    · simp [load_config, loadResponses, henv, ht, hp]
    · simp [load_config, loadResponses, henv, ht, hp]
  · intro hp henv
    simp [load_config, loadErrors, henv, hp]
  · intro henv
    simp [load_config, loadErrors, henv]
  · intro t msg henv ht hp
    constructor
    · simp [load_config, loadErrors, henv, ht, hp]
    · simp [load_config, loadErrors, henv, ht, hp]
  · intro hp henv
    simp [load_config, loadDelay, henv, hp]
  · intro t henv hp
    constructor
    · simp [load_config, loadDelay, henv, hp]
    · simp [load_config, loadDelay, henv, hp]

theorem config_loading_degrades_gracefully_witness :
    (load_config pjFixture piFixture envMalformedResponses).stdoutLines = []
    ∧ ((load_config pjFixture piFixture envMalformedResponses).config.responses = .obj []
        ∧ "ERROR: Invalid MCP_MOCK_RESPONSES JSON"
            ∈ (load_config pjFixture piFixture envMalformedResponses).stderrLines)
    ∧ (load_config pjFixture piFixture envMalformedResponses).config.errors = .obj []
    ∧ (load_config pjFixture piFixture envMalformedResponses).config.delay_seconds = 0 :=
  ⟨(config_loading_degrades_gracefully pjFixture piFixture envMalformedResponses).1,
   (config_loading_degrades_gracefully pjFixture piFixture
      envMalformedResponses).2.2.2.1 "not-json" "invalid" rfl (by decide) rfl,
   (config_loading_degrades_gracefully pjFixture piFixture
      envMalformedResponses).2.2.2.2.1 rfl rfl,
   (config_loading_degrades_gracefully pjFixture piFixture
      envMalformedResponses).2.2.2.2.2.2.2.1 rfl rfl⟩

/-- C10: a delay variable that parses as a negative integer is kept
unchanged with no diagnostic, and request processing with a negative
delay sleeps nothing and behaves exactly as with delay 0. -/
theorem negative_delay_accepted_and_inert
    (parseInt : String → Option Int) (env : String → Option String)
    (t : String) (d : Int)
    (henv : env "MCP_MOCK_DELAY" = some t)
    (hp : parseInt t = some d) (hneg : d < 0) :
    loadDelay parseInt env = (d, [])
    ∧ (∀ (fields re er : List (String × Json)),
        process_request (.ok (.obj fields)) re er d
          = ⟨[], resolverOutcome fields re er⟩)
    ∧ (∀ (x : Except String Json) (re er : List (String × Json)),
        process_request x re er d = process_request x re er 0) := by
  have h1 : ¬ (d > 0) := by omega
  refine ⟨by simp [loadDelay, henv, hp], fun fields re er => ?_, fun x re er => ?_⟩
  · rw [process_request_obj]
    simp [if_neg h1]
  · cases x with
    | error e => rfl
    | ok j =>
        cases j
        case obj fields =>
          rw [process_request_obj, process_request_obj]
          simp [if_neg h1]
        all_goals rfl

theorem negative_delay_accepted_and_inert_witness :
    loadDelay piFixture envNegativeDelay = (-5, [])
    ∧ (∀ (fields re er : List (String × Json)),
        process_request (.ok (.obj fields)) re er (-5)
          = ⟨[], resolverOutcome fields re er⟩)
    ∧ (∀ (x : Except String Json) (re er : List (String × Json)),
        process_request x re er (-5) = process_request x re er 0) :=
  negative_delay_accepted_and_inert piFixture envNegativeDelay "-5" (-5)
    rfl rfl (by decide)

end MCPMock
